import Mathlib

/-!
# Verification of the Termux remote-execution helpers

Shallow embedding of the configuration loaders, command runners, SSH
session client, file-transfer helpers and remote filesystem probes of
`termux_utils.py` and `termux-ssh-login.py`, together with proofs of the
behavioural properties stated in the specification.

A configuration file is modelled as the list of its lines (Python's
`readlines`; each line may carry surrounding whitespace, which both
loaders strip).  A Python `dict` is modelled by its lookup function,
with keyed functional update; every use of `self.config` in the source
is a keyed store or lookup, so this captures exactly the observable
dict behaviour.  The string primitives used by the
source (`strip`, `startswith`, `endswith`, `split('=', 1)`, `int(...)`)
are given structurally recursive definitions over the character list of
a `String` so that every definition evaluates by kernel reduction.
-/

/-- The whitespace characters removed by Python's `str.strip()`
(space, tab, newline, carriage return, vertical tab, form feed). -/
def pyWS (c : Char) : Bool :=
  c = ' ' || c = '\t' || c = '\n' || c = '\r' || c = Char.ofNat 11 || c = Char.ofNat 12

/-- Python `str.strip()` on a character list. -/
def trimL (l : List Char) : List Char :=
  ((l.dropWhile pyWS).reverse.dropWhile pyWS).reverse

/-- Python `str.strip()`: remove surrounding whitespace. -/
def pyStrip (s : String) : String := String.mk (trimL s.data)

/-- Python `s.startswith(pat)`. -/
def pyStartsWith (s pat : String) : Bool := pat.data.isPrefixOf s.data

/-- Python `s.endswith(pat)`. -/
def pyEndsWith (s pat : String) : Bool := pat.data.isSuffixOf s.data

/-- Python `'=' in line`. -/
def containsEq (s : String) : Bool := s.data.contains '='

/-- Split a character list at the first `'='`: the pair of what comes
before it and what comes after it (`(l, [])` when there is no `'='`). -/
def splitEq1L : List Char → List Char × List Char
  | [] => ([], [])
  | c :: cs =>
    if c = '=' then ([], cs)
    else
      let r := splitEq1L cs
      (c :: r.1, r.2)

/-- Python `line.split('=', 1)`: the text before the first `=` and the
text after it (callers only use this under a `containsEq` guard). -/
def splitEq1 (s : String) : String × String :=
  let r := splitEq1L s.data
  (String.mk r.1, String.mk r.2)

/-- Python `s[n:]`. -/
def pyDrop (s : String) (n : Nat) : String := String.mk (s.data.drop n)

/-- The single-quote character (written by code point to keep source
lines free of quote characters). -/
def squote : String := String.mk [Char.ofNat 39]

/-- `termux-ssh-login.py` lines 77-80: remove one matching pair of
surrounding double or single quotes from a value, if present
(Python `value[1:-1]`). -/
def unquote (v : String) : String :=
  if pyStartsWith v "\"" && pyEndsWith v "\"" then String.mk (v.data.drop 1).dropLast
  else if pyStartsWith v squote && pyEndsWith v squote then String.mk (v.data.drop 1).dropLast
  else v

/-- Decimal digit accumulation used by `pyInt`; fails on the first
non-digit character. -/
def parseDigits : List Char → Nat → Option Nat
  | [], acc => some acc
  | c :: cs, acc =>
    if c.isDigit then parseDigits cs (acc * 10 + (c.toNat - 48)) else none

/-- Python `int(s)`: strip surrounding whitespace, accept an optional
sign followed by at least one decimal digit, raise (`none`) otherwise. -/
def pyInt (s : String) : Option Int :=
  match trimL s.data with
  | [] => none
  | c :: cs =>
    if c = '-' then
      match cs with
      | [] => none
      | _ => (parseDigits cs 0).map (fun n => -(n : Int))
    else if c = '+' then
      match cs with
      | [] => none
      | _ => (parseDigits cs 0).map (fun n => (n : Int))
    else (parseDigits (c :: cs) 0).map (fun n => (n : Int))

/-- A Python `dict` with string keys and values, modelled by its lookup
function (`None` for an absent key); sufficient because every use in
the source is a keyed store or lookup. -/
def Dict : Type := String → Option String

/-- The empty dict `{}`. -/
def dictEmpty : Dict := fun _ => none

/-- Python `d[k] = v`: the binding of `k` becomes `v`, everything else
is unchanged. -/
def dictInsert (d : Dict) (k v : String) : Dict :=
  fun k2 => if k2 == k then some v else d k2

/-- Python `d[k]` / `k in d`: look the key up. -/
def dictGet (d : Dict) (k : String) : Option String := d k

namespace TermuxSSHClient

/-- One iteration of the line loop of `TermuxSSHClient.read_config`
(`termux-ssh-login.py` lines 63-84): strip the line, skip blanks and
`#`-comments, split the first `=` into a key and a value, strip both,
unquote the value and store the pair; a non-blank non-comment line
without `=` is logged as a warning and skipped. -/
def read_config_step (cfg : Dict) (rawLine : String) : Dict :=
  let line := pyStrip rawLine
  if line = "" || pyStartsWith line "#" then cfg
  else if containsEq line then
    let kv := splitEq1 line
    dictInsert cfg (pyStrip kv.1) (unquote (pyStrip kv.2))
  else cfg

/-- The whole line loop of `read_config`, folded over the file's lines
starting from the current `self.config`. -/
def read_config_parse (lines : List String) (cfg : Dict) : Dict :=
  lines.foldl read_config_step cfg

/-- `required_fields = ['host', 'port', 'user']` (line 87). -/
def required_fields : List String := ["host", "port", "user"]

/-- `missing_fields` (line 88): the required fields absent from the
parsed mapping, in declaration order. -/
def missing_fields (cfg : Dict) : List String :=
  required_fields.filter (fun f => (dictGet cfg f).isNone)

/-- `TermuxSSHClient.read_config` (lines 49-103) on a file that exists
and reads without I/O error: parse every line into `self.config`, then
validate; returns the success flag together with the final
`self.config` (the object state observable by the caller).  `cfg₀` is
the value of `self.config` before the call (`{}` from `__init__`). -/
def read_config (lines : List String) (cfg₀ : Dict) : Bool × Dict :=
  let cfg := read_config_parse lines cfg₀
  ((missing_fields cfg).isEmpty, cfg)

end TermuxSSHClient

/-- Loop state of `read_termux_ssh_config` (`termux_utils.py` lines
38-49): `host = None`, `port = 8022`, `user = None`, plus a flag
recording that an exception was raised (only `int(...)` on a malformed
port can raise inside the loop; the surrounding `try` then returns the
all-`None` triple). -/
structure ModState where
  host : Option String
  port : Int
  user : Option String
  exc : Bool
deriving DecidableEq

/-- Initial loop state: `host = None; port = 8022; user = None`. -/
def mod_init : ModState := ⟨none, 8022, none, false⟩

/-- One iteration of the line loop of `read_termux_ssh_config` (lines
42-49).  After an exception the remaining lines are not processed. -/
def mod_step (st : ModState) (rawLine : String) : ModState :=
  if st.exc then st
  else
    let line := pyStrip rawLine
    if pyStartsWith line "host=" then ⟨some (pyDrop line 5), st.port, st.user, false⟩
    else if pyStartsWith line "port=" then
      match pyInt (pyDrop line 5) with
      | some n => ⟨st.host, n, st.user, false⟩
      | none => ⟨st.host, st.port, st.user, true⟩
    else if pyStartsWith line "user=" then ⟨st.host, st.port, some (pyDrop line 5), false⟩
    else st

/-- The whole line loop of `read_termux_ssh_config`. -/
def mod_parse (lines : List String) : ModState :=
  lines.foldl mod_step mod_init

/-- `read_termux_ssh_config` (`termux_utils.py` lines 26-58) on a file
that exists and reads without I/O error: run the line loop, then
`if not host or not user` fail; on success return `(host, port, user)`.
Every failure path returns the all-`None` triple, modelled as `none`. -/
def read_termux_ssh_config (lines : List String) : Option (String × Int × String) :=
  let st := mod_parse lines
  if st.exc then none
  else
    match st.host, st.user with
    | some h, some u => if h = "" || u = "" then none else some (h, st.port, u)
    | some _, none => none
    | none, _ => none

/-- The result object of one command execution: exit status and captured
output streams (`subprocess.CompletedProcess` for local commands, the
`SSHResult` class of `termux_utils.py` lines 101-107 for remote ones --
both expose the same three fields). -/
structure CmdResult where
  returncode : Int
  stdout : String
  stderr : String
deriving DecidableEq

/-- What `subprocess.run` does on a given invocation, as seen by the
caller: either the process spawns and completes with a result, or the
spawn itself raises an exception. -/
inductive SpawnOutcome where
  | ok (result : CmdResult)
  | raises (msg : String)

/-- `run_command` (`termux_utils.py` lines 61-74): run the command line
through `subprocess.run`; when spawning raises, catch the exception and
return `(False, None)`; when the process exits non-zero and `check` is
set, return `(False, result)`; otherwise `(True, result)`.  The function
itself never raises. -/
def run_command (outcome : SpawnOutcome) (check : Bool := true) :
    Bool × Option CmdResult :=
  match outcome with
  | .raises _ => (false, none)
  | .ok r => if check && r.returncode != 0 then (false, some r) else (true, some r)

/-- The exception classes caught by `run_ssh_command`
(`termux_utils.py` lines 116-124): `paramiko.AuthenticationException`,
`paramiko.SSHException`, and any other exception (which is where a
`socket.timeout` raised by an expired command timeout lands). -/
inductive SSHExc where
  | auth
  | ssh (msg : String)
  | other (msg : String)

/-- What one SSH call does, as seen by `run_ssh_command`: the connect
step raises, or the connect succeeds and the exec/read step raises
(command timeout included), or the command completes with captured
output and an exit status. -/
inductive SSHBehavior where
  | connectRaises (e : SSHExc)
  | execRaises (e : SSHExc)
  | completes (stdout stderr : String) (exitCode : Int)

/-- The observable trace of one `run_ssh_command` call: the returned
pair, whether a connection was opened, whether `ssh.close()` ran before
the return, and which timeouts were handed to `ssh.connect` and to
`ssh.exec_command` (`none` when the step was never reached). -/
structure SSHCallTrace where
  success : Bool
  result : Option CmdResult
  connectionOpened : Bool
  connectionClosed : Bool
  connectTimeout : Nat
  execTimeout : Option Nat

/-- `run_ssh_command` (`termux_utils.py` lines 77-124): connect with
`timeout=30`, run the command with `timeout=timeout` (default `300`),
read both streams and the exit status, call `ssh.close()`, and return
`(exit_code == 0, result)`.  Every caught exception returns
`(False, None)`; `ssh.close()` is on the straight-line path only --
there is no `finally` block, so an exception skips it. -/
def run_ssh_command (b : SSHBehavior) (timeout : Nat := 300) : SSHCallTrace :=
  match b with
  | .connectRaises _ => ⟨false, none, false, false, 30, none⟩
  | .execRaises _ => ⟨false, none, true, false, 30, some timeout⟩
  | .completes out err ec =>
    ⟨ec == 0, some ⟨ec, out, err⟩, true, true, 30, some timeout⟩

/-- `execute_ssh_command` (`termux_utils.py` lines 165-172): load the
configuration from `termux-user.txt` (its outcome is the `config`
argument); on a load failure return `(False, None)` without touching the
network, otherwise delegate to `run_ssh_command`.  `remote` gives the
SSH behaviour of the remote host on the issued command line. -/
def execute_ssh_command (config : Option (String × Int × String))
    (remote : String → SSHBehavior) (cmd : String) (timeout : Nat := 300) :
    Bool × Option CmdResult :=
  match config with
  | none => (false, none)
  | some _ =>
    let t := run_ssh_command (remote cmd) timeout
    (t.success, t.result)

/-- `check_file_exists_on_android` (`termux_utils.py` lines 217-221):
run `test -f <path>` remotely and return the success flag. -/
def check_file_exists_on_android (config : Option (String × Int × String))
    (remote : String → SSHBehavior) (android_path : String) : Bool :=
  (execute_ssh_command config remote ("test -f " ++ android_path)).1

/-- `check_directory_exists_on_android` (`termux_utils.py` lines
224-228): run `test -d <path>` remotely and return the success flag. -/
def check_directory_exists_on_android (config : Option (String × Int × String))
    (remote : String → SSHBehavior) (android_path : String) : Bool :=
  (execute_ssh_command config remote ("test -d " ++ android_path)).1

/-- What one `subprocess.run(ssh_cmd, ..., timeout=30)` call inside
`TermuxSSHClient.execute_command` does: completes with a result, raises
`subprocess.TimeoutExpired`, or raises some other exception. -/
inductive SubprocessOutcome where
  | completes (r : CmdResult)
  | timeoutExpired
  | raises (msg : String)

/-- The observable trace of one `TermuxSSHClient.execute_command` call:
the returned `(success, output)` pair and the timeout handed to
`subprocess.run`, which bounds the entire `ssh` child process
(handshake and remote command together). -/
structure ExecCmdTrace where
  success : Bool
  output : Option String
  subprocessTimeout : Nat
  remoteCommand : String

/-- `TermuxSSHClient.execute_command` (`termux-ssh-login.py` lines
151-175): run `ssh -p <port> <user>@<host> <command>` through
`subprocess.run` with a hard-coded `timeout=30`; return
`(True, stdout)` on exit 0, `(False, stderr)` on non-zero exit,
`(False, "Command timed out")` on `TimeoutExpired`, and
`(False, str(e))` on any other exception. -/
def TermuxSSHClient.execute_command (command : String)
    (outcome : SubprocessOutcome) : ExecCmdTrace :=
  match outcome with
  | .completes r =>
    if r.returncode == 0 then ⟨true, some r.stdout, 30, command⟩
    else ⟨false, some r.stderr, 30, command⟩
  | .timeoutExpired => ⟨false, some "Command timed out", 30, command⟩
  | .raises m => ⟨false, some m, 30, command⟩

/-- Python `os.unlink(p)` on a local filesystem modelled as the list of
existing paths. -/
def os_unlink (fs : List String) (p : String) : List String :=
  fs.filter (fun q => !(q == p))

/-- `create_temp_file` (`termux_utils.py` lines 175-179): write the
content to a fresh temporary path (`tmpName`, chosen by `tempfile`) and
return that path; on the filesystem the path now exists. -/
def create_temp_file (fs : List String) (tmpName : String) : List String :=
  tmpName :: fs

/-- `push_content_to_android` (`termux_utils.py` lines 182-194): create
the temporary file, call `push_file_to_android` (which only reads the
local file; its outcome is `pushOutcome`, with `Except.error` standing
for an exception propagating out of it), and in a `finally` block delete
the temporary file if it still exists.  Returns the call's outcome
together with the final local filesystem. -/
def push_content_to_android (fs : List String) (tmpName : String)
    (pushOutcome : Except String Bool) : Except String Bool × List String :=
  let fs1 := create_temp_file fs tmpName
  let fs2 := if fs1.contains tmpName then os_unlink fs1 tmpName else fs1
  (pushOutcome, fs2)

/-- A raw line is a well-formed `key=value` line for the stripped key `k`
and stripped (not yet unquoted) value `v`: after stripping it is
non-blank, not a comment, contains `=`, and splitting at the first `=`
yields `k` and `v` once both sides are stripped. -/
def wellFormedLineB (k v line : String) : Bool :=
  (pyStrip line != "") && !(pyStartsWith (pyStrip line) "#") &&
    containsEq (pyStrip line) && (pyStrip (splitEq1 (pyStrip line)).1 == k) &&
    (pyStrip (splitEq1 (pyStrip line)).2 == v)

/-- Folding one already-split entry into the configuration the way
`read_config` does: unquote the stripped value and store it. -/
def insertEntry (c : Dict) (e : String × String) : Dict :=
  dictInsert c e.1 (unquote e.2)


theorem dictGet_dictInsert_self (d : Dict) (k v : String) :
    dictGet (dictInsert d k v) k = some v := by
  simp [dictGet, dictInsert]

theorem dictGet_dictInsert_ne (d : Dict) (k v k2 : String) (hne : k2 ≠ k) :
    dictGet (dictInsert d k v) k2 = dictGet d k2 := by
  simp [dictGet, dictInsert, hne]

/-- Claim C5 (confirmed). Temporary-file cleanup: after any call to
`push_content_to_android`, the staged local temporary file no longer
exists on disk, whether the underlying transfer succeeded, failed, or
raised. -/
theorem push_content_temp_file_deleted (fs : List String) (tmpName : String)
    (pushOutcome : Except String Bool) :
    ((push_content_to_android fs tmpName pushOutcome).2.contains tmpName) = false := by
  have : ∀ l : List String, ((l.filter (fun q => !(q == tmpName))).contains tmpName) = false := by
    intro l
    induction l with
    | nil => rfl
    | cons x xs ih =>
      by_cases hx : x == tmpName
      · simp [List.filter, hx, ih]
      · have hx2 : ¬(tmpName = x) := fun h => hx (by simp [h])
        simp [List.filter, hx, List.contains_cons, hx2, ih]
  simp [push_content_to_android, create_temp_file, os_unlink, this (tmpName :: fs)]

/-- Claim C6 (confirmed). Command Runner failure semantics: `run_command`
never raises (it is a total function of the spawn outcome); a spawn that
throws yields `(False, None)` -- a failure carrying no command result --
while a spawned process that exits non-zero under `check=True` yields
`(False, result)` with the captured result. -/
theorem run_command_failure_semantics :
    (∀ msg check, run_command (SpawnOutcome.raises msg) check = (false, none)) ∧
    (∀ r : CmdResult, r.returncode ≠ 0 →
      run_command (SpawnOutcome.ok r) true = (false, some r)) := by
  refine ⟨fun msg check => rfl, fun r hr => ?_⟩
  simp [run_command, hr]

/-- Witness for C6 at a concrete spawn error and a concrete non-zero
exit. -/
theorem run_command_failure_semantics_witness :
    run_command (SpawnOutcome.raises "No such file or directory") true = (false, none) ∧
    run_command (SpawnOutcome.ok ⟨1, "", "scp: error"⟩) true =
      (false, some ⟨1, "", "scp: error"⟩) :=
  ⟨run_command_failure_semantics.1 "No such file or directory" true,
   run_command_failure_semantics.2 ⟨1, "", "scp: error"⟩ (by decide)⟩

/-- Claim C3 (counterexample). `run_ssh_command` has no `finally` block:
when the command execution raises (a timeout included) after the
connection was opened, the function returns without calling
`ssh.close()` -- refuting the claim that the connection is closed on
every exit path. -/
theorem ssh_connection_left_open_on_timeout :
    (run_ssh_command (SSHBehavior.execRaises (SSHExc.other "timed out")) 300).connectionOpened
        = true ∧
    (run_ssh_command (SSHBehavior.execRaises (SSHExc.other "timed out")) 300).connectionClosed
        = false :=
  ⟨rfl, rfl⟩

/-- Claim C3 (amended). The connection is closed before return exactly on
the exit paths with no exception: success and remote non-zero exit (both
produce a result).  On every exception path no `close` runs, and after a
post-connect exception (timeout or read error) the opened connection is
left unclosed. -/
theorem ssh_connection_closed_on_completion (b : SSHBehavior) (t : Nat) :
    ((run_ssh_command b t).result.isSome = true →
      (run_ssh_command b t).connectionClosed = true) ∧
    ((run_ssh_command b t).connectionOpened = true ∧
        (run_ssh_command b t).connectionClosed = false ↔
      ∃ e, b = SSHBehavior.execRaises e) := by
  cases b <;> simp [run_ssh_command]

/-- Witness for the amended C3 on the remote-non-zero-exit path. -/
theorem ssh_connection_closed_on_completion_witness :
    (run_ssh_command (SSHBehavior.completes "" "no such file" 2) 300).connectionClosed = true :=
  (ssh_connection_closed_on_completion (SSHBehavior.completes "" "no such file" 2) 300).1 rfl

/-- Claim C7 (counterexample). The SSH CLI driver's command path,
`TermuxSSHClient.execute_command`, bounds the whole `ssh` subprocess by
a hard-coded 30 seconds, not by a 300-second default timeout parameter. -/
theorem cli_driver_timeout_is_30 :
    (TermuxSSHClient.execute_command "ls -la" SubprocessOutcome.timeoutExpired).subprocessTimeout
        = 30 ∧
    (30 : Nat) ≠ 300 :=
  ⟨rfl, by decide⟩

/-- Claim C7 (amended). In `run_ssh_command` the timeout parameter
defaults to 300 seconds and is handed to `exec_command` (bounding the
remote command execution), while the connection handshake is separately
bounded by 30 seconds; the CLI driver's `execute_command`, by contrast,
takes no timeout parameter and bounds its entire `ssh` subprocess
(handshake and command) by a fixed 30 seconds. -/
theorem ssh_timeout_contract :
    (∀ b, run_ssh_command b = run_ssh_command b 300) ∧
    (∀ b t, (run_ssh_command b t).connectTimeout = 30) ∧
    (∀ e t, (run_ssh_command (SSHBehavior.execRaises e) t).execTimeout = some t) ∧
    (∀ out err ec t,
      (run_ssh_command (SSHBehavior.completes out err ec) t).execTimeout = some t) ∧
    (∀ cmd o, (TermuxSSHClient.execute_command cmd o).subprocessTimeout = 30) := by
  refine ⟨fun b => rfl, fun b t => ?_, fun e t => rfl, fun out err ec t => rfl,
    fun cmd o => ?_⟩
  · cases b <;> rfl
  · cases o with
    | completes r =>
      by_cases h : r.returncode == 0 <;> simp [TermuxSSHClient.execute_command, h]
    | timeoutExpired => rfl
    | raises m => rfl

theorem execute_ssh_success_iff (config : Option (String × Int × String))
    (remote : String → SSHBehavior) (cmd : String) (t : Nat) :
    (execute_ssh_command config remote cmd t).1 = true ↔
      config.isSome = true ∧
        ∃ out err, remote cmd = SSHBehavior.completes out err 0 := by
  cases config with
  | none => simp [execute_ssh_command]
  | some c =>
    cases h : remote cmd with
    | connectRaises e => simp [execute_ssh_command, run_ssh_command, h]
    | execRaises e => simp [execute_ssh_command, run_ssh_command, h]
    | completes out err ec =>
      simp only [execute_ssh_command, run_ssh_command, h, Option.isSome_some, true_and]
      constructor
      · intro hec
        exact ⟨out, err, by rw [beq_iff_eq] at hec; rw [hec]⟩
      · rintro ⟨o2, e2, heq⟩
        cases heq
        exact beq_self_eq_true 0

/-- Claim C9 (confirmed). Probe reduction: `check_file_exists_on_android`
and `check_directory_exists_on_android` return `True` exactly when the
configuration loaded and the remote `test -f` / `test -d` command
completed with exit status zero; every other situation -- missing or
invalid configuration, connect failure, authentication failure, timeout,
or a non-zero remote exit -- yields `False`, and the functions are total
(they never raise). -/
theorem probes_reduce_to_remote_exit_zero (config : Option (String × Int × String))
    (remote : String → SSHBehavior) (path : String) :
    (check_file_exists_on_android config remote path = true ↔
      config.isSome = true ∧
        ∃ out err, remote ("test -f " ++ path) = SSHBehavior.completes out err 0) ∧
    (check_directory_exists_on_android config remote path = true ↔
      config.isSome = true ∧
        ∃ out err, remote ("test -d " ++ path) = SSHBehavior.completes out err 0) :=
  ⟨execute_ssh_success_iff config remote ("test -f " ++ path) 300,
   execute_ssh_success_iff config remote ("test -d " ++ path) 300⟩

/-- Claim C10 (confirmed). In `TermuxSSHClient.read_config`, a non-blank
non-comment line without `=` is skipped (after a warning) and
contributes nothing: the per-line step leaves the mapping unchanged, so
deleting such a line from a file changes neither the resulting
configuration nor the success of the load. -/
theorem invalid_line_skipped (l : String)
    (h1 : pyStrip l ≠ "") (h2 : pyStartsWith (pyStrip l) "#" = false)
    (h3 : containsEq (pyStrip l) = false) :
    (∀ cfg, TermuxSSHClient.read_config_step cfg l = cfg) ∧
    (∀ pre post cfg₀,
      TermuxSSHClient.read_config (pre ++ l :: post) cfg₀ =
        TermuxSSHClient.read_config (pre ++ post) cfg₀) := by
  have hstep : ∀ cfg, TermuxSSHClient.read_config_step cfg l = cfg := by
    intro cfg
    simp [TermuxSSHClient.read_config_step, h1, h2, h3]
  refine ⟨hstep, fun pre post cfg₀ => ?_⟩
  unfold TermuxSSHClient.read_config TermuxSSHClient.read_config_parse
  rw [List.foldl_append, List.foldl_append, List.foldl_cons, hstep]

/-- Witness for C10: a junk line in the middle of a valid file changes
nothing, and the load still succeeds. -/
theorem invalid_line_skipped_witness :
    TermuxSSHClient.read_config ["host=1.2.3.4", "this line has no equals sign",
        "port=8022", "user=bob"] dictEmpty =
      TermuxSSHClient.read_config ["host=1.2.3.4", "port=8022", "user=bob"] dictEmpty ∧
    (TermuxSSHClient.read_config ["host=1.2.3.4", "this line has no equals sign",
        "port=8022", "user=bob"] dictEmpty).1 = true := by
  have h := (invalid_line_skipped "this line has no equals sign" (by decide) (by decide)
    (by decide)).2 ["host=1.2.3.4"] ["port=8022", "user=bob"] dictEmpty
  exact ⟨h, by decide⟩

theorem mod_step_preserves_port_exc (st : ModState) (l : String)
    (h : pyStartsWith (pyStrip l) "port=" = false) :
    (mod_step st l).port = st.port ∧ (mod_step st l).exc = st.exc := by
  unfold mod_step
  by_cases he : st.exc
  · simp [he]
  · simp only [he, if_false, Bool.false_eq_true]
    by_cases hh : pyStartsWith (pyStrip l) "host=" = true
    · simp [hh, he]
    · by_cases hu : pyStartsWith (pyStrip l) "user=" = true <;> simp [hh, h, hu, he]

theorem foldl_mod_step_no_port (lines : List String) :
    ∀ st : ModState, (∀ l ∈ lines, pyStartsWith (pyStrip l) "port=" = false) →
      (lines.foldl mod_step st).port = st.port ∧
        (lines.foldl mod_step st).exc = st.exc := by
  induction lines with
  | nil => exact fun st _ => ⟨rfl, rfl⟩
  | cons l ls ih =>
    intro st h
    have h1 := mod_step_preserves_port_exc st l (h l (by simp))
    have h2 := ih (mod_step st l) (fun x hx => h x (by simp [hx]))
    rw [List.foldl_cons]
    exact ⟨h2.1.trans h1.1, h2.2.trans h1.2⟩

/-- Claim C8 (confirmed). Default-port policy: on a file whose lines
contain no `port` key but do produce a host and a user, the module-level
loader `read_termux_ssh_config` succeeds with the default port `8022`,
while the class-based loader `TermuxSSHClient.read_config` fails
validation on the very same file. -/
theorem default_port_policy (lines : List String) (hv uv : String)
    (hnp : ∀ l ∈ lines, pyStartsWith (pyStrip l) "port=" = false)
    (hh : (mod_parse lines).host = some hv) (hhe : hv ≠ "")
    (hu : (mod_parse lines).user = some uv) (hue : uv ≠ "")
    (hcls : dictGet (TermuxSSHClient.read_config_parse lines dictEmpty) "port" = none) :
    read_termux_ssh_config lines = some (hv, 8022, uv) ∧
    (TermuxSSHClient.read_config lines dictEmpty).1 = false := by
  constructor
  · have hfold : (mod_parse lines).port = 8022 ∧ (mod_parse lines).exc = false := by
      simpa [mod_parse, mod_init] using foldl_mod_step_no_port lines mod_init hnp
    simp [read_termux_ssh_config, hfold.1, hfold.2, hh, hu, hhe, hue]
  · have hmem : "port" ∈ TermuxSSHClient.missing_fields
        (TermuxSSHClient.read_config_parse lines dictEmpty) := by
      apply List.mem_filter.2
      refine ⟨by decide, ?_⟩
      simp [hcls]
    unfold TermuxSSHClient.read_config
    rcases hne : TermuxSSHClient.missing_fields
        (TermuxSSHClient.read_config_parse lines dictEmpty) with _ | ⟨a, ms⟩
    · rw [hne] at hmem; simp at hmem
    · simp [hne]

/-- Witness for C8: a file with only a host and a user line. -/
theorem default_port_policy_witness :
    read_termux_ssh_config ["host=192.168.1.5", "user=termux"] =
      some ("192.168.1.5", 8022, "termux") ∧
    (TermuxSSHClient.read_config ["host=192.168.1.5", "user=termux"] dictEmpty).1 = false :=
  default_port_policy ["host=192.168.1.5", "user=termux"] "192.168.1.5" "termux"
    (by decide) (by decide) (by decide) (by decide) (by decide) (by decide)

/-- Claim C4 (counterexample). The module-level loader
`read_termux_ssh_config` does not fail on a file missing the `port`
key: it succeeds with the default port, refuting the claim that loading
fails for every file missing a non-empty subset of the required keys. -/
theorem module_loader_accepts_missing_port :
    read_termux_ssh_config ["host=1.2.3.4", "user=bob"] = some ("1.2.3.4", 8022, "bob") ∧
    read_termux_ssh_config ["host=1.2.3.4", "user=bob"] ≠ none :=
  ⟨by decide, by decide⟩

/-- Claim C4 (amended). For the class-based loader the property holds:
the load succeeds exactly when no required key is absent from the parsed
mapping, the reported `missing_fields` list contains exactly the absent
required keys (all at once, in the order host, port, user), and a file
containing only `host=1.2.3.4` fails naming exactly `port` and `user`.
The module-level loader, by contrast, does not fail when only `port` is
missing (see the counterexample). -/
theorem read_config_names_missing_keys (lines : List String) (cfg₀ : Dict) :
    ((TermuxSSHClient.read_config lines cfg₀).1 = false ↔
      TermuxSSHClient.missing_fields (TermuxSSHClient.read_config_parse lines cfg₀) ≠ []) ∧
    (∀ f, f ∈ TermuxSSHClient.missing_fields
        (TermuxSSHClient.read_config_parse lines cfg₀) ↔
      f ∈ TermuxSSHClient.required_fields ∧
        dictGet (TermuxSSHClient.read_config_parse lines cfg₀) f = none) ∧
    (TermuxSSHClient.read_config ["host=1.2.3.4"] dictEmpty).1 = false ∧
    TermuxSSHClient.missing_fields
        (TermuxSSHClient.read_config_parse ["host=1.2.3.4"] dictEmpty) = ["port", "user"] := by
  refine ⟨?_, ?_, by decide, by decide⟩
  · unfold TermuxSSHClient.read_config
    rcases hne : TermuxSSHClient.missing_fields
        (TermuxSSHClient.read_config_parse lines cfg₀) with _ | ⟨a, ms⟩ <;> simp [hne]
  · intro f
    unfold TermuxSSHClient.missing_fields
    rw [List.mem_filter]
    simp [Option.isNone_iff_eq_none]

/-- Claim C2 (counterexample). A failed load of the class-based loader
leaves the partially parsed configuration observable in `self.config`:
on a file containing only a host line, `read_config` returns `False`
yet the configuration mapping now binds `host`, which it did not before
the call -- refuting "no partial configuration is observable". -/
theorem failed_load_exposes_partial_config :
    (TermuxSSHClient.read_config ["host=1.2.3.4"] dictEmpty).1 = false ∧
    (TermuxSSHClient.read_config ["host=1.2.3.4"] dictEmpty).2 "host" = some "1.2.3.4" ∧
    dictEmpty "host" = none :=
  ⟨by decide, by decide, rfl⟩

/-- Claim C2 (amended). No failed load ever returns a complete
configuration as its result: when the class-based loader reports
success, every required key is present in the mapping; and the
module-level loader is all-or-nothing -- any failure returns the
all-`None` triple, and any success carries a non-empty host and user.
However, the class-based loader's `config` attribute does retain
partially parsed pairs after a failed load (see the counterexample). -/
theorem load_success_iff_complete (lines : List String) (cfg₀ : Dict) :
    ((TermuxSSHClient.read_config lines cfg₀).1 = true →
      ∀ f ∈ TermuxSSHClient.required_fields,
        (dictGet (TermuxSSHClient.read_config lines cfg₀).2 f).isSome = true) ∧
    (∀ hv p uv, read_termux_ssh_config lines = some (hv, p, uv) → hv ≠ "" ∧ uv ≠ "") := by
  constructor
  · intro hs f hf
    unfold TermuxSSHClient.read_config at hs ⊢
    simp only at hs ⊢
    rw [List.isEmpty_iff] at hs
    by_contra hc
    have hnone : (dictGet (TermuxSSHClient.read_config_parse lines cfg₀) f).isNone = true := by
      rcases hval : dictGet (TermuxSSHClient.read_config_parse lines cfg₀) f with _ | v
      · rfl
      · rw [hval] at hc; simp at hc
    have : f ∈ TermuxSSHClient.missing_fields
        (TermuxSSHClient.read_config_parse lines cfg₀) :=
      List.mem_filter.2 ⟨hf, hnone⟩
    rw [hs] at this
    simp at this
  · intro hv p uv hsome
    unfold read_termux_ssh_config at hsome
    by_cases he : (mod_parse lines).exc
    · simp [he] at hsome
    · simp only [he, if_false, Bool.false_eq_true] at hsome
      rcases hh : (mod_parse lines).host with _ | h0 <;> rw [hh] at hsome
      · simp at hsome
      · rcases hu : (mod_parse lines).user with _ | u0 <;> rw [hu] at hsome
        · simp at hsome
        · by_cases hz : h0 = "" ∨ u0 = ""
          · simp [hz] at hsome
          · push_neg at hz
            simp [hz.1, hz.2] at hsome
            exact ⟨hsome.1 ▸ hz.1, hsome.2.2 ▸ hz.2⟩

/-- Witness for the amended C2 at a concrete complete file. -/
theorem load_success_iff_complete_witness :
    (dictGet (TermuxSSHClient.read_config ["host=1.2.3.4", "port=8022", "user=bob"]
        dictEmpty).2 "port").isSome = true ∧
    ("1.2.3.4" : String) ≠ "" ∧ ("bob" : String) ≠ "" :=
  ⟨(load_success_iff_complete ["host=1.2.3.4", "port=8022", "user=bob"] dictEmpty).1
      (by decide) "port" (by decide),
   (load_success_iff_complete ["host=1.2.3.4", "port=8022", "user=bob"] dictEmpty).2
      "1.2.3.4" 8022 "bob" (by decide)⟩

/-- Claim C1 (counterexample). The module-level loader
`read_termux_ssh_config` performs no unquoting: a quoted host value is
returned with its quotes, so its loaded value does not equal the input
value with quotes removed. -/
theorem module_loader_keeps_quotes :
    read_termux_ssh_config ["host=\"1.2.3.4\"", "port=8022", "user=bob"] =
      some ("\"1.2.3.4\"", 8022, "bob") ∧
    ("\"1.2.3.4\"" : String) ≠ "1.2.3.4" :=
  ⟨by decide, by decide⟩

theorem read_config_step_wf (k v line : String) (cfg : Dict)
    (hwf : wellFormedLineB k v line = true) :
    TermuxSSHClient.read_config_step cfg line = insertEntry cfg (k, v) := by
  unfold wellFormedLineB at hwf
  simp only [Bool.and_eq_true, bne_iff_ne, Bool.not_eq_true', beq_iff_eq] at hwf
  obtain ⟨⟨⟨⟨h1, h2⟩, h3⟩, h4⟩, h5⟩ := hwf
  unfold TermuxSSHClient.read_config_step insertEntry
  simp [h1, h2, h3, h4, h5]

theorem read_config_parse_wf (entries : List (String × String)) (lines : List String)
    (hwf : List.Forall₂ (fun e l => wellFormedLineB e.1 e.2 l = true) entries lines) :
    ∀ cfg, TermuxSSHClient.read_config_parse lines cfg = entries.foldl insertEntry cfg := by
  induction hwf with
  | nil => intro cfg; rfl
  | cons h hrest ih =>
    rename_i a b ents lns
    intro cfg
    unfold TermuxSSHClient.read_config_parse at ih ⊢
    rw [List.foldl_cons, List.foldl_cons, read_config_step_wf a.1 a.2 b cfg h]
    exact ih (insertEntry cfg a)

theorem foldl_insertEntry_notmem (entries : List (String × String)) :
    ∀ (c : Dict) (k : String), k ∉ entries.map Prod.fst →
      dictGet (entries.foldl insertEntry c) k = dictGet c k := by
  induction entries with
  | nil => intro c k _; rfl
  | cons e rest ih =>
    intro c k hk
    simp only [List.map_cons, List.mem_cons, not_or] at hk
    rw [List.foldl_cons, ih _ k hk.2]
    exact dictGet_dictInsert_ne c e.1 (unquote e.2) k hk.1

theorem foldl_insertEntry_mem (entries : List (String × String)) :
    ∀ c : Dict, (entries.map Prod.fst).Nodup →
      ∀ e ∈ entries, dictGet (entries.foldl insertEntry c) e.1 = some (unquote e.2) := by
  induction entries with
  | nil => intro c _ e he; simp at he
  | cons e0 rest ih =>
    intro c hnd e he
    simp only [List.map_cons, List.nodup_cons] at hnd
    rw [List.foldl_cons]
    rcases List.mem_cons.1 he with rfl | hmem
    · rw [foldl_insertEntry_notmem rest (insertEntry c e) e.1 hnd.1]
      exact dictGet_dictInsert_self c e.1 (unquote e.2)
    · exact ih (insertEntry c e0) hnd.2 e hmem

/-- Claim C1 (amended). Configuration round-trip for the class-based
loader: for every well-formed `key=value` input (each line splitting at
its first `=` into a stripped key and a stripped value, keys pairwise
distinct) containing the keys `host`, `port` and `user`,
`TermuxSSHClient.read_config` succeeds and maps each key to its input
value with surrounding whitespace stripped and one matching pair of
surrounding single or double quotes removed.  The module-level loader
does not satisfy this: it performs no unquoting (see the
counterexample). -/
theorem config_round_trip (entries : List (String × String)) (lines : List String)
    (hwf : List.Forall₂ (fun e l => wellFormedLineB e.1 e.2 l = true) entries lines)
    (hnd : (entries.map Prod.fst).Nodup)
    (hhost : "host" ∈ entries.map Prod.fst)
    (hport : "port" ∈ entries.map Prod.fst)
    (huser : "user" ∈ entries.map Prod.fst) :
    (TermuxSSHClient.read_config lines dictEmpty).1 = true ∧
    ∀ e ∈ entries,
      dictGet (TermuxSSHClient.read_config lines dictEmpty).2 e.1 =
        some (unquote e.2) := by
  have hparse : TermuxSSHClient.read_config_parse lines dictEmpty =
      entries.foldl insertEntry dictEmpty := read_config_parse_wf entries lines hwf dictEmpty
  have hlook := foldl_insertEntry_mem entries dictEmpty hnd
  have hsome : ∀ f ∈ TermuxSSHClient.required_fields,
      (dictGet (entries.foldl insertEntry dictEmpty) f).isSome = true := by
    intro f hf
    have hfm : f ∈ entries.map Prod.fst := by
      simp only [TermuxSSHClient.required_fields, List.mem_cons, List.not_mem_nil,
        or_false] at hf
      rcases hf with rfl | rfl | rfl
      · exact hhost
      · exact hport
      · exact huser
    obtain ⟨e, he, rfl⟩ := List.mem_map.1 hfm
    rw [hlook e he]
    rfl
  constructor
  · unfold TermuxSSHClient.read_config
    simp only
    rw [hparse, List.isEmpty_iff]
    unfold TermuxSSHClient.missing_fields
    rw [List.filter_eq_nil_iff]
    intro f hf
    rcases Option.isSome_iff_exists.1 (hsome f hf) with ⟨v, hv⟩
    simp [hv]
  · intro e he
    unfold TermuxSSHClient.read_config
    simp only
    rw [hparse]
    exact hlook e he

/-- Witness for the amended C1 at a concrete well-formed file with a
quoted, whitespace-padded port value. -/
theorem config_round_trip_witness :
    (TermuxSSHClient.read_config ["host=1.2.3.4", "port = \"8022\"", "user=bob"]
        dictEmpty).1 = true ∧
    dictGet (TermuxSSHClient.read_config ["host=1.2.3.4", "port = \"8022\"", "user=bob"]
        dictEmpty).2 "port" = some (unquote "\"8022\"") ∧
    unquote "\"8022\"" = "8022" := by
  have h := config_round_trip
    [("host", "1.2.3.4"), ("port", "\"8022\""), ("user", "bob")]
    ["host=1.2.3.4", "port = \"8022\"", "user=bob"]
    (List.Forall₂.cons (by decide) (List.Forall₂.cons (by decide)
      (List.Forall₂.cons (by decide) List.Forall₂.nil)))
    (by decide) (by decide) (by decide) (by decide)
  exact ⟨h.1, h.2 ("port", "\"8022\"") (by decide), by decide⟩
